import Mathlib

/-!
Verification of the block-based CSP timetable scheduler (`api/scheduler.py`).

The Python scheduler is shallowly embedded below: the snapshot of the
academic state (rooms, courses with their qualified staff, groups,
sections) is a record of lists, the SQLAlchemy queries of `_load_cache`
and `_generate_variables` become list filters and lookups over those
lists, and the recursive `_backtrack` becomes a fuel-indexed structural
recursion (the fuel used by `generate_schedule` strictly exceeds the
recursion depth of the source, so the exhaustion branch is never taken).
Errors are the exact message strings raised by the Python code.
-/

namespace CSP

inductive SessionType where
  | LECTURE
  | LAB
  | TUTORIAL
deriving DecidableEq, Repr

structure Building where
  building_id : Nat
  building_name : String
deriving DecidableEq, Repr

structure Room where
  room_id : Nat
  building_id : Nat
  room_number : String
  room_type : String
  capacity : Nat
deriving DecidableEq, Repr

structure Instructor where
  instructor_id : Nat
  instructor_name : String
deriving DecidableEq, Repr

structure TA where
  ta_id : Nat
  ta_name : String
deriving DecidableEq, Repr

structure Course where
  course_id : Nat
  course_code : String
  course_name : String
  level_id : Nat
  instructors : List Instructor
  tas : List TA
deriving DecidableEq, Repr

structure Group where
  group_id : Nat
  level_id : Nat
  group_number : Nat
  num_students : Nat
deriving DecidableEq, Repr

structure Section where
  section_id : Nat
  level_id : Nat
  group_id : Nat
  section_number : Nat
  num_students : Nat
deriving DecidableEq, Repr

/-- The immutable snapshot of academic state the solver reads
(the rows of the store, in store order). -/
structure Snapshot where
  buildings : List Building
  rooms : List Room
  courses : List Course
  groups : List Group
  sections : List Section
deriving DecidableEq, Repr

/-- `BLOCKS_PER_DAY = 8` in the source. -/
def BLOCKS_PER_DAY : Nat := 8

/-- `DAYS` in the source. -/
def DAYS : List String := ["Sunday", "Monday", "Tuesday", "Wednesday", "Thursday"]

/-- `BLOCK_TIMES`: block index to wall-clock (start, end). -/
def BLOCK_TIMES : Nat → String × String
  | 0 => ("09:00", "09:45")
  | 1 => ("09:45", "10:30")
  | 2 => ("10:45", "11:30")
  | 3 => ("11:30", "12:15")
  | 4 => ("12:30", "13:15")
  | 5 => ("13:15", "14:00")
  | 6 => ("14:15", "15:00")
  | 7 => ("15:00", "15:45")
  | _ => ("", "")

/-- `VALID_START_BLOCKS`: legal start blocks for 2-block sessions. -/
def VALID_START_BLOCKS : List Nat := [0, 2, 4, 6]

/-- `SessionVariable` dataclass of the source. -/
structure SessionVariable where
  var_id : Nat
  course_id : Nat
  course_code : String
  course_name : String
  session_type : SessionType
  duration_blocks : Nat
  student_count : Nat
  required_room_type : String
  level_id : Nat
  group_id : Option Nat := none
  group_number : Option Nat := none
  section_id : Option Nat := none
  section_number : Option Nat := none
deriving DecidableEq, Repr

/-- `Assignment` dataclass of the source (`variable` is a Lean keyword,
so the field is called `var`). -/
structure Assignment where
  var : SessionVariable
  day : String
  start_block : Nat
  end_block : Nat
  room_id : Nat
  room_number : String
  building_name : String
  instructor_id : Option Nat := none
  instructor_name : Option String := none
  ta_id : Option Nat := none
  ta_name : Option String := none
deriving DecidableEq, Repr

/-- `Assignment.start_time` property. -/
def Assignment.start_time (a : Assignment) : String := (BLOCK_TIMES a.start_block).1

/-- `Assignment.end_time` property. -/
def Assignment.end_time (a : Assignment) : String := (BLOCK_TIMES (a.end_block - 1)).2

/-! ## `_load_cache`: the derived lookup tables

`rooms_by_type` is a dict of lists filled by appending in room order, so
it is the order-preserving filter of the room list; `instructors_by_course`
and `tas_by_course` come from the course's relationship lists;
`building_names` resolves a building id through the buildings table. -/

def rooms_by_type (s : Snapshot) (t : String) : List Room :=
  s.rooms.filter (fun room => room.room_type == t)

def instructors_by_course (s : Snapshot) (cid : Nat) : List Instructor :=
  match s.courses.find? (fun c => c.course_id == cid) with
  | some c => c.instructors
  | none => []

def tas_by_course (s : Snapshot) (cid : Nat) : List TA :=
  match s.courses.find? (fun c => c.course_id == cid) with
  | some c => c.tas
  | none => []

def building_name (s : Snapshot) (bid : Nat) : String :=
  match s.buildings.find? (fun b => b.building_id == bid) with
  | some b => b.building_name
  | none => ""

/-! ## `_capacity_check` -/

/-- `_capacity_check`: at least one room of the required type has
capacity ≥ the student count. -/
def capacity_check (s : Snapshot) (v : SessionVariable) : Bool :=
  (rooms_by_type s v.required_room_type).any (fun room => v.student_count ≤ room.capacity)

/-! ## `_generate_variables` -/

/-- The LECTURE variable built for (course, group) at counter `n`. -/
def mkLectureVar (c : Course) (g : Group) (n : Nat) : SessionVariable :=
  { var_id := n
    course_id := c.course_id
    course_code := c.course_code
    course_name := c.course_name
    session_type := .LECTURE
    duration_blocks := 2
    student_count := g.num_students
    required_room_type := if g.num_students > 100 then "Theater" else "Classroom"
    level_id := g.level_id
    group_id := some g.group_id
    group_number := some g.group_number }

/-- The LAB variable built for (course, group, section) at counter `n`. -/
def mkLabVar (c : Course) (g : Group) (sec : Section) (n : Nat) : SessionVariable :=
  { var_id := n
    course_id := c.course_id
    course_code := c.course_code
    course_name := c.course_name
    session_type := .LAB
    duration_blocks := 2
    student_count := sec.num_students
    required_room_type := "Lab"
    level_id := sec.level_id
    group_id := some g.group_id
    group_number := some g.group_number
    section_id := some sec.section_id
    section_number := some sec.section_number }

/-- The TUTORIAL variable built for (course, group, section) at counter `n`. -/
def mkTutorialVar (c : Course) (g : Group) (sec : Section) (n : Nat) : SessionVariable :=
  { var_id := n
    course_id := c.course_id
    course_code := c.course_code
    course_name := c.course_name
    session_type := .TUTORIAL
    duration_blocks := if sec.num_students ≤ 15 then 1 else 2
    student_count := sec.num_students
    required_room_type := "Classroom"
    level_id := sec.level_id
    group_id := some g.group_id
    group_number := some g.group_number
    section_id := some sec.section_id
    section_number := some sec.section_number }

/-- The inner section loop of `_generate_variables`: for each section,
build the LAB then the TUTORIAL variable, checking capacity after each
construction and aborting with the exact Python message on failure.
Returns the emitted variables and the counter after them. -/
def genSections (s : Snapshot) (c : Course) (g : Group) :
    List Section → Nat → Except String (List SessionVariable × Nat)
  | [], n => .ok ([], n)
  | sec :: rest, n =>
    let lab_var := mkLabVar c g sec n
    if capacity_check s lab_var then
      let tutorial_var := mkTutorialVar c g sec (n + 1)
      if capacity_check s tutorial_var then
        match genSections s c g rest (n + 2) with
        | .ok (vs, m) => .ok (lab_var :: tutorial_var :: vs, m)
        | .error e => .error e
      else
        .error ("No Classroom available for Tutorial (Section " ++
          toString sec.section_number ++ ") with " ++
          toString tutorial_var.student_count ++ " students")
    else
      .error ("No Lab available for Section " ++ toString sec.section_number ++
        " with " ++ toString lab_var.student_count ++ " students")

/-- The group loop of `_generate_variables`: one LECTURE per group
(capacity-checked), then the sections of the group in store order. -/
def genGroups (s : Snapshot) (c : Course) :
    List Group → Nat → Except String (List SessionVariable × Nat)
  | [], n => .ok ([], n)
  | g :: rest, n =>
    let lecture_var := mkLectureVar c g n
    if capacity_check s lecture_var then
      match genSections s c g (s.sections.filter (fun sec => sec.group_id == g.group_id)) (n + 1) with
      | .ok (vs, m) =>
        match genGroups s c rest m with
        | .ok (vs2, m2) => .ok (lecture_var :: vs ++ vs2, m2)
        | .error e => .error e
      | .error e => .error e
    else
      .error ("No " ++ lecture_var.required_room_type ++ " available for Lecture (Course " ++
        c.course_code ++ ", Group " ++ toString g.group_number ++ ") with " ++
        toString lecture_var.student_count ++ " students")

/-- The course loop of `_generate_variables`: courses in store order,
each paired with the groups of its level in store order. -/
def genCourses (s : Snapshot) :
    List Course → Nat → Except String (List SessionVariable × Nat)
  | [], n => .ok ([], n)
  | c :: rest, n =>
    match genGroups s c (s.groups.filter (fun g => g.level_id == c.level_id)) n with
    | .ok (vs, m) =>
      match genCourses s rest m with
      | .ok (vs2, m2) => .ok (vs ++ vs2, m2)
      | .error e => .error e
    | .error e => .error e

/-- `_generate_variables`: the ordered variable list, or the first
capacity-shortfall error. -/
def generate_variables (s : Snapshot) : Except String (List SessionVariable) :=
  match genCourses s s.courses 0 with
  | .ok (vs, _) => .ok vs
  | .error e => .error e

/-! ## `_generate_domain` -/

/-- `_generate_domain`: the cross product (days × legal start blocks ×
suitable rooms × role-correct staff) in exactly the source's loop order. -/
def generate_domain (s : Snapshot) (v : SessionVariable) : List Assignment :=
  let suitable_rooms := (rooms_by_type s v.required_room_type).filter
    (fun room => v.student_count ≤ room.capacity)
  let valid_blocks := if v.duration_blocks == 2 then VALID_START_BLOCKS
    else List.range BLOCKS_PER_DAY
  if v.session_type == .LECTURE then
    let instructors := instructors_by_course s v.course_id
    if instructors.isEmpty then []
    else
      DAYS.flatMap fun day =>
        valid_blocks.flatMap fun start_block =>
          if start_block + v.duration_blocks > BLOCKS_PER_DAY then []
          else
            suitable_rooms.flatMap fun room =>
              instructors.map fun staff =>
                { var := v
                  day := day
                  start_block := start_block
                  end_block := start_block + v.duration_blocks
                  room_id := room.room_id
                  room_number := room.room_number
                  building_name := building_name s room.building_id
                  instructor_id := some staff.instructor_id
                  instructor_name := some staff.instructor_name }
  else
    let tas := tas_by_course s v.course_id
    if tas.isEmpty then []
    else
      DAYS.flatMap fun day =>
        valid_blocks.flatMap fun start_block =>
          if start_block + v.duration_blocks > BLOCKS_PER_DAY then []
          else
            suitable_rooms.flatMap fun room =>
              tas.map fun staff =>
                { var := v
                  day := day
                  start_block := start_block
                  end_block := start_block + v.duration_blocks
                  room_id := room.room_id
                  room_number := room.room_number
                  building_name := building_name s room.building_id
                  ta_id := some staff.ta_id
                  ta_name := some staff.ta_name }

/-! ## `_is_valid` and `_check_hierarchy` -/

/-- Python truthiness of an optional integer id: both None and 0 are
falsy, so the source treats an id of 0 as unset in its clash guards. -/
def truthy : Option Nat → Bool
  | none => false
  | some n => !(n == 0)

/-- `_check_hierarchy`: false on a hierarchy conflict between the two
variables (H1 same-group lectures, H2 lecture versus lab/tutorial of the
same group, H3 same-section non-lectures). -/
def check_hierarchy (var1 var2 : SessionVariable) : Bool :=
  if var1.session_type == .LECTURE && var2.session_type == .LECTURE &&
      var1.group_id == var2.group_id then false
  else if var1.session_type == .LECTURE && !(var2.session_type == .LECTURE) &&
      var2.group_id == var1.group_id then false
  else if var2.session_type == .LECTURE && !(var1.session_type == .LECTURE) &&
      var1.group_id == var2.group_id then false
  else if truthy var1.section_id && truthy var2.section_id &&
      var1.section_id == var2.section_id &&
      !(var1.session_type == .LECTURE) && !(var2.session_type == .LECTURE) then false
  else true

/-- The body of the second `_is_valid` loop for one existing assignment:
room, staff and hierarchy checks, gated by same-day block overlap. -/
def conflict_ok (a existing : Assignment) : Bool :=
  if a.day == existing.day then
    let overlap := !(decide (a.end_block ≤ existing.start_block) ||
      decide (a.start_block ≥ existing.end_block))
    if overlap then
      if a.room_id == existing.room_id then false
      else if truthy a.instructor_id && a.instructor_id == existing.instructor_id then false
      else if truthy a.ta_id && a.ta_id == existing.ta_id then false
      else check_hierarchy a.var existing.var
    else true
  else true

/-- `_is_valid`: the singleton rule over all existing assignments, then
the conflict checks over all existing assignments. -/
def is_valid (assignments : List Assignment) (a : Assignment) : Bool :=
  assignments.all (fun existing => !(existing.var.var_id == a.var.var_id)) &&
  assignments.all (fun existing => conflict_ok a existing)

/-! ## `_backtrack` -/

/-- `_backtrack`, fuel-indexed: with the remaining variables and the
committed assignment list, try each domain candidate in order; append on
validity, recurse, and undo on failure (`findSome?` returns the first
candidate whose recursion succeeds). One unit of fuel is consumed per
recursion level, so any fuel exceeding the number of remaining variables
makes the exhaustion branch unreachable. -/
def backtrack (s : Snapshot) : Nat → List SessionVariable → List Assignment →
    Option (List Assignment)
  | 0, _, _ => none
  | _ + 1, [], assignments => some assignments
  | fuel + 1, v :: rest, assignments =>
    let domain := generate_domain s v
    if domain.isEmpty then none
    else
      domain.findSome? fun a =>
        if is_valid assignments a then backtrack s fuel rest (assignments ++ [a])
        else none

/-- `generate_schedule`: generate variables (fail-fast), then search;
a failed search raises the source's `NoSchedule` message. -/
def generate_schedule (s : Snapshot) : Except String (List Assignment) :=
  match generate_variables s with
  | .error e => .error e
  | .ok vars =>
    match backtrack s (vars.length + 1) vars [] with
    | some r => .ok r
    | none => .error "Could not find valid schedule. Constraints are too tight."

/-! ## The emission order, capacity checks stripped

`allSections`, `allGroups` and `allCourses` repeat the loop structure of
`_generate_variables` without the capacity aborts; `generate_variables`
is then characterized as: first emitted variable failing the capacity
check (in emission order) aborts with its message, otherwise the full
emission is returned. -/

def allSections (c : Course) (g : Group) : List Section → Nat → List SessionVariable
  | [], _ => []
  | sec :: rest, n =>
    mkLabVar c g sec n :: mkTutorialVar c g sec (n + 1) :: allSections c g rest (n + 2)

def allGroups (s : Snapshot) (c : Course) : List Group → Nat → List SessionVariable
  | [], _ => []
  | g :: rest, n =>
    let secs := allSections c g (s.sections.filter (fun sec => sec.group_id == g.group_id)) (n + 1)
    (mkLectureVar c g n :: secs) ++ allGroups s c rest (n + 1 + secs.length)

def allCourses (s : Snapshot) : List Course → Nat → List SessionVariable
  | [], _ => []
  | c :: rest, n =>
    let vs := allGroups s c (s.groups.filter (fun g => g.level_id == c.level_id)) n
    vs ++ allCourses s rest (n + vs.length)

/-- The full emission of `_generate_variables`, capacity checks aside. -/
def allVariables (s : Snapshot) : List SessionVariable := allCourses s s.courses 0

/-- The capacity-shortfall message `_generate_variables` raises for a
variable, exactly as the source formats it per session type. -/
def capacityMessage (v : SessionVariable) : String :=
  match v.session_type with
  | .LECTURE =>
    "No " ++ v.required_room_type ++ " available for Lecture (Course " ++
      v.course_code ++ ", Group " ++ toString (v.group_number.getD 0) ++ ") with " ++
      toString v.student_count ++ " students"
  | .LAB =>
    "No Lab available for Section " ++ toString (v.section_number.getD 0) ++
      " with " ++ toString v.student_count ++ " students"
  | .TUTORIAL =>
    "No Classroom available for Tutorial (Section " ++ toString (v.section_number.getD 0) ++
      ") with " ++ toString v.student_count ++ " students"

theorem genSections_eq (s : Snapshot) (c : Course) (g : Group) :
    ∀ (secs : List Section) (n : Nat),
    genSections s c g secs n =
      match (allSections c g secs n).find? (fun v => !capacity_check s v) with
      | some v => .error (capacityMessage v)
      | none => .ok (allSections c g secs n, n + (allSections c g secs n).length) := by
  intro secs
  induction secs with
  | nil => intro n; simp [genSections, allSections]
  | cons sec rest ih =>
    intro n
    simp only [genSections, allSections]
    cases hlab : capacity_check s (mkLabVar c g sec n) with
    | false =>
      simp only [List.find?_cons]
      simp only [hlab]
      rfl
    | true =>
      cases htut : capacity_check s (mkTutorialVar c g sec (n + 1)) with
      | false =>
        simp only [List.find?_cons]
        simp only [hlab, htut]
        rfl
      | true =>
        rw [ih]
        simp only [List.find?_cons]
        simp only [hlab, htut, Bool.not_true]
        cases hfind : (allSections c g rest (n + 2)).find? (fun v => !capacity_check s v) with
        | some v => simp
        | none =>
          simp only [List.length_cons, Prod.mk.injEq]
          refine congrArg Except.ok (Prod.ext rfl (by omega))

example (o : Option Nat) : (Option.or none o) = o := by simp
theorem genGroups_eq (s : Snapshot) (c : Course) :
    ∀ (gs : List Group) (n : Nat),
    genGroups s c gs n =
      match (allGroups s c gs n).find? (fun v => !capacity_check s v) with
      | some v => .error (capacityMessage v)
      | none => .ok (allGroups s c gs n, n + (allGroups s c gs n).length) := by
  intro gs
  induction gs with
  | nil => intro n; simp [genGroups, allGroups]
  | cons g rest ih =>
    intro n
    simp only [genGroups, allGroups]
    cases hlec : capacity_check s (mkLectureVar c g n) with
    | false =>
      simp only [List.find?_append, List.find?_cons]
      simp only [hlec]
      rfl
    | true =>
      rw [genSections_eq]
      simp only [List.find?_cons, List.find?_append]
      simp only [hlec, Bool.not_true]
      cases hfind : (allSections c g
          (s.sections.filter (fun sec => sec.group_id == g.group_id)) (n + 1)).find?
          (fun v => !capacity_check s v) with
      | some v => simp
      | none =>
        simp only [Option.none_or]
        rw [ih]
        cases hfind2 : (allGroups s c rest
            (n + 1 + (allSections c g
              (s.sections.filter (fun sec => sec.group_id == g.group_id)) (n + 1)).length)).find?
            (fun v => !capacity_check s v) with
        | some v => simp
        | none =>
          simp only [List.length_cons, List.length_append]
          exact congrArg Except.ok (Prod.ext rfl (by omega))

theorem genCourses_eq (s : Snapshot) :
    ∀ (cs : List Course) (n : Nat),
    genCourses s cs n =
      match (allCourses s cs n).find? (fun v => !capacity_check s v) with
      | some v => .error (capacityMessage v)
      | none => .ok (allCourses s cs n, n + (allCourses s cs n).length) := by
  intro cs
  induction cs with
  | nil => intro n; simp [genCourses, allCourses]
  | cons c rest ih =>
    intro n
    simp only [genCourses, allCourses]
    rw [genGroups_eq]
    simp only [List.find?_append]
    cases hfind : (allGroups s c
        (s.groups.filter (fun g => g.level_id == c.level_id)) n).find?
        (fun v => !capacity_check s v) with
    | some v => simp
    | none =>
      simp only [Option.none_or]
      rw [ih]
      cases hfind2 : (allCourses s rest
          (n + (allGroups s c
            (s.groups.filter (fun g => g.level_id == c.level_id)) n).length)).find?
          (fun v => !capacity_check s v) with
      | some v => simp
      | none =>
        simp only [List.length_append]
        exact congrArg Except.ok (Prod.ext rfl (by omega))

theorem generate_variables_eq (s : Snapshot) :
    generate_variables s =
      match (allVariables s).find? (fun v => !capacity_check s v) with
      | some v => .error (capacityMessage v)
      | none => .ok (allVariables s) := by
  simp only [generate_variables, allVariables]
  rw [genCourses_eq]
  cases hfind : (allCourses s s.courses 0).find? (fun v => !capacity_check s v) with
  | some v => simp
  | none => simp

theorem generate_variables_ok (s : Snapshot) (vars : List SessionVariable)
    (h : generate_variables s = .ok vars) : vars = allVariables s := by
  rw [generate_variables_eq] at h
  cases hfind : (allVariables s).find? (fun v => !capacity_check s v) with
  | some v => rw [hfind] at h; cases h
  | none => rw [hfind] at h; exact (Except.ok.inj h).symm

/-! ## Scenario 1 of §8: the minimal feasible snapshot -/

/-- Scenario 1: one course at one level, one group of 50 with one section
of 50, rooms R1(Classroom, 60) and R2(Lab, 60), instructor I1 and TA T1
qualified for the course. -/
def snap1 : Snapshot :=
  { buildings := [{ building_id := 1, building_name := "B1" }]
    rooms := [
      { room_id := 1, building_id := 1, room_number := "R1", room_type := "Classroom",
        capacity := 60 },
      { room_id := 2, building_id := 1, room_number := "R2", room_type := "Lab",
        capacity := 60 }]
    courses := [
      { course_id := 1, course_code := "C1", course_name := "Course 1", level_id := 1,
        instructors := [{ instructor_id := 1, instructor_name := "I1" }],
        tas := [{ ta_id := 1, ta_name := "T1" }] }]
    groups := [{ group_id := 1, level_id := 1, group_number := 1, num_students := 50 }]
    sections := [{ section_id := 1, level_id := 1, group_id := 1, section_number := 1,
                   num_students := 50 }] }

/-- The expected first assignment of scenario 1: the LECTURE on Sunday,
blocks 0-1 (end block 2 exclusive), in R1, taught by I1. -/
def snap1_lecture : Assignment :=
  { var := { var_id := 0, course_id := 1, course_code := "C1", course_name := "Course 1",
             session_type := .LECTURE, duration_blocks := 2, student_count := 50,
             required_room_type := "Classroom", level_id := 1, group_id := some 1,
             group_number := some 1 }
    day := "Sunday", start_block := 0, end_block := 2, room_id := 1, room_number := "R1",
    building_name := "B1", instructor_id := some 1, instructor_name := some "I1" }

/-- The expected second assignment of scenario 1: the LAB on Sunday,
blocks 2-3, in R2, taught by T1. -/
def snap1_lab : Assignment :=
  { var := { var_id := 1, course_id := 1, course_code := "C1", course_name := "Course 1",
             session_type := .LAB, duration_blocks := 2, student_count := 50,
             required_room_type := "Lab", level_id := 1, group_id := some 1,
             group_number := some 1, section_id := some 1, section_number := some 1 }
    day := "Sunday", start_block := 2, end_block := 4, room_id := 2, room_number := "R2",
    building_name := "B1", ta_id := some 1, ta_name := some "T1" }

/-- The expected third assignment of scenario 1: the TUTORIAL on Sunday,
blocks 4-5, in R1, taught by T1. -/
def snap1_tutorial : Assignment :=
  { var := { var_id := 2, course_id := 1, course_code := "C1", course_name := "Course 1",
             session_type := .TUTORIAL, duration_blocks := 2, student_count := 50,
             required_room_type := "Classroom", level_id := 1, group_id := some 1,
             group_number := some 1, section_id := some 1, section_number := some 1 }
    day := "Sunday", start_block := 4, end_block := 6, room_id := 1, room_number := "R1",
    building_name := "B1", ta_id := some 1, ta_name := some "T1" }

/-! ## Facts about `_generate_domain` -/

/-- Shape of every domain element: the variable is attached verbatim, the
end block is start + duration within the 8-block day, 2-block sessions
start on an even block, 1-block ones anywhere, the room is a suitable
room of the required type, and the staff member is a qualified instructor
(lectures, TA fields null) or a qualified TA (otherwise, instructor
fields null). -/
theorem mem_generate_domain (s : Snapshot) (v : SessionVariable) (a : Assignment)
    (h : a ∈ generate_domain s v) :
    a.var = v ∧
    a.end_block = a.start_block + v.duration_blocks ∧
    a.start_block + v.duration_blocks ≤ BLOCKS_PER_DAY ∧
    (v.duration_blocks = 2 → a.start_block ∈ VALID_START_BLOCKS) ∧
    (v.duration_blocks ≠ 2 → a.start_block < BLOCKS_PER_DAY) ∧
    (∃ room ∈ rooms_by_type s v.required_room_type,
      v.student_count ≤ room.capacity ∧ a.room_id = room.room_id) ∧
    (v.session_type = .LECTURE →
      a.ta_id = none ∧ ∃ i ∈ instructors_by_course s v.course_id,
        a.instructor_id = some i.instructor_id) ∧
    (v.session_type ≠ .LECTURE →
      a.instructor_id = none ∧ ∃ t ∈ tas_by_course s v.course_id,
        a.ta_id = some t.ta_id) := by
  rw [generate_domain] at h
  by_cases hlec : v.session_type = SessionType.LECTURE
  · rw [if_pos (by simp [hlec])] at h
    by_cases hemp : (instructors_by_course s v.course_id).isEmpty
    · rw [if_pos hemp] at h
      cases h
    · rw [if_neg hemp] at h
      rw [List.mem_flatMap] at h
      obtain ⟨day, hday, h⟩ := h
      rw [List.mem_flatMap] at h
      obtain ⟨sb, hsb, h⟩ := h
      by_cases hbound : sb + v.duration_blocks > BLOCKS_PER_DAY
      · rw [if_pos hbound] at h
        cases h
      · rw [if_neg hbound] at h
        rw [List.mem_flatMap] at h
        obtain ⟨room, hroom, h⟩ := h
        rw [List.mem_map] at h
        obtain ⟨staff, hstaff, ha⟩ := h
        subst ha
        refine ⟨rfl, rfl, ?_, ?_, ?_, ?_, ?_, ?_⟩
        · show sb + v.duration_blocks ≤ BLOCKS_PER_DAY
          omega
        · intro h2
          show sb ∈ VALID_START_BLOCKS
          rw [if_pos (by simp [h2])] at hsb
          exact hsb
        · intro h2
          show sb < BLOCKS_PER_DAY
          rw [if_neg (by simpa using h2)] at hsb
          simpa using hsb
        · exact ⟨room, (List.mem_filter.mp hroom).1,
            by simpa using (List.mem_filter.mp hroom).2, rfl⟩
        · exact fun _ => ⟨rfl, staff, hstaff, rfl⟩
        · intro h2; exact absurd hlec h2
  · rw [if_neg (by simpa using hlec)] at h
    by_cases hemp : (tas_by_course s v.course_id).isEmpty
    · rw [if_pos hemp] at h
      cases h
    · rw [if_neg hemp] at h
      rw [List.mem_flatMap] at h
      obtain ⟨day, hday, h⟩ := h
      rw [List.mem_flatMap] at h
      obtain ⟨sb, hsb, h⟩ := h
      by_cases hbound : sb + v.duration_blocks > BLOCKS_PER_DAY
      · rw [if_pos hbound] at h
        cases h
      · rw [if_neg hbound] at h
        rw [List.mem_flatMap] at h
        obtain ⟨room, hroom, h⟩ := h
        rw [List.mem_map] at h
        obtain ⟨staff, hstaff, ha⟩ := h
        subst ha
        refine ⟨rfl, rfl, ?_, ?_, ?_, ?_, ?_, ?_⟩
        · show sb + v.duration_blocks ≤ BLOCKS_PER_DAY
          omega
        · intro h2
          show sb ∈ VALID_START_BLOCKS
          rw [if_pos (by simp [h2])] at hsb
          exact hsb
        · intro h2
          show sb < BLOCKS_PER_DAY
          rw [if_neg (by simpa using h2)] at hsb
          simpa using hsb
        · exact ⟨room, (List.mem_filter.mp hroom).1,
            by simpa using (List.mem_filter.mp hroom).2, rfl⟩
        · intro h2; exact absurd h2 hlec
        · exact fun _ => ⟨rfl, staff, hstaff, rfl⟩

/-! ## Facts about `_is_valid` and `_check_hierarchy` -/

theorem is_valid_iff (assignments : List Assignment) (a : Assignment) :
    is_valid assignments a = true ↔
      (∀ e ∈ assignments, e.var.var_id ≠ a.var.var_id) ∧
      (∀ e ∈ assignments, conflict_ok a e = true) := by
  simp [is_valid, List.all_eq_true]

/-- What passing one conflict check means when the two assignments are on
the same day with overlapping block ranges. -/
theorem conflict_ok_elim (a e : Assignment) (hok : conflict_ok a e = true)
    (hday : a.day = e.day)
    (hov : e.start_block < a.end_block ∧ a.start_block < e.end_block) :
    a.room_id ≠ e.room_id ∧
    ¬(truthy a.instructor_id = true ∧ a.instructor_id = e.instructor_id) ∧
    ¬(truthy a.ta_id = true ∧ a.ta_id = e.ta_id) ∧
    check_hierarchy a.var e.var = true := by
  simp only [conflict_ok] at hok
  rw [if_pos (show (a.day == e.day) = true by simp [hday])] at hok
  have hov2 : (!(decide (a.end_block ≤ e.start_block) ||
      decide (a.start_block ≥ e.end_block))) = true := by
    simp only [Bool.not_eq_true', Bool.or_eq_false_iff, decide_eq_false_iff_not]
    omega
  rw [if_pos hov2] at hok
  by_cases hroom : (a.room_id == e.room_id) = true
  · rw [if_pos hroom] at hok; cases hok
  · rw [if_neg hroom] at hok
    by_cases hinst : (truthy a.instructor_id && a.instructor_id == e.instructor_id) = true
    · rw [if_pos hinst] at hok; cases hok
    · rw [if_neg hinst] at hok
      by_cases hta : (truthy a.ta_id && a.ta_id == e.ta_id) = true
      · rw [if_pos hta] at hok; cases hok
      · rw [if_neg hta] at hok
        refine ⟨by simpa using hroom, ?_, ?_, hok⟩
        · rintro ⟨hs, heq⟩
          rw [heq] at hs
          exact hinst (by simp [hs, heq])
        · rintro ⟨hs, heq⟩
          rw [heq] at hs
          exact hta (by simp [hs, heq])

/-- What passing `_check_hierarchy` rules out: H1 (two lectures of one
group), H2 (a lecture against a lab/tutorial of its group, either
order), H3 (two non-lectures of one section). -/
theorem check_hierarchy_elim (v1 v2 : SessionVariable)
    (h : check_hierarchy v1 v2 = true) :
    ¬(v1.session_type = .LECTURE ∧ v2.session_type = .LECTURE ∧
      v1.group_id = v2.group_id) ∧
    ¬(v1.session_type = .LECTURE ∧ v2.session_type ≠ .LECTURE ∧
      v2.group_id = v1.group_id) ∧
    ¬(v2.session_type = .LECTURE ∧ v1.session_type ≠ .LECTURE ∧
      v1.group_id = v2.group_id) ∧
    ¬(v1.session_type ≠ .LECTURE ∧ v2.session_type ≠ .LECTURE ∧
      ∃ sid, sid ≠ 0 ∧ v1.section_id = some sid ∧ v2.section_id = some sid) := by
  refine ⟨?_, ?_, ?_, ?_⟩
  · rintro ⟨ha, hb, hc⟩
    rw [check_hierarchy, if_pos (by simp [ha, hb, hc])] at h
    cases h
  · rintro ⟨ha, hb, hc⟩
    rw [check_hierarchy, if_neg (by simp [hb]),
      if_pos (by simp [ha, hb, hc])] at h
    cases h
  · rintro ⟨ha, hb, hc⟩
    rw [check_hierarchy, if_neg (by simp [hb]), if_neg (by simp [hb]),
      if_pos (by simp [ha, hb, hc])] at h
    cases h
  · rintro ⟨ha, hb, ⟨sid, hsid, hc, hd⟩⟩
    rw [check_hierarchy, if_neg (by simp [ha]), if_neg (by simp [ha]),
      if_neg (by simp [hb]), if_pos (by simp [ha, hb, hc, hd, truthy, hsid])] at h
    cases h

/-- Two non-lecture variables of different sections never trip the
hierarchy check (overlap of distinct sections of one group is allowed). -/
theorem check_hierarchy_different_sections (v1 v2 : SessionVariable)
    (h1 : v1.session_type ≠ .LECTURE) (h2 : v2.session_type ≠ .LECTURE)
    (h3 : v1.section_id ≠ v2.section_id) :
    check_hierarchy v1 v2 = true := by
  rw [check_hierarchy, if_neg (by simp [h1]), if_neg (by simp [h1]),
    if_neg (by simp [h2]), if_neg (by simp [h3])]

/-! ## Facts about `_backtrack` -/

/-- Every assignment in a successful search result was either already
committed or drawn from the domain of one of the remaining variables. -/
theorem backtrack_mem (s : Snapshot) :
    ∀ (fuel : Nat) (rest : List SessionVariable) (asgn r : List Assignment),
    backtrack s fuel rest asgn = some r →
    ∀ a ∈ r, a ∈ asgn ∨ ∃ v ∈ rest, a ∈ generate_domain s v := by
  intro fuel
  induction fuel with
  | zero => intro rest asgn r h; cases h
  | succ fuel ih =>
    intro rest asgn r h
    cases rest with
    | nil =>
      simp only [backtrack, Option.some.injEq] at h
      subst h
      exact fun a ha => Or.inl ha
    | cons v vs =>
      simp only [backtrack] at h
      by_cases hemp : (generate_domain s v).isEmpty
      · rw [if_pos hemp] at h; cases h
      · rw [if_neg hemp] at h
        obtain ⟨cand, hcand, hc⟩ := List.exists_of_findSome?_eq_some h
        cases hval : is_valid asgn cand with
        | false => rw [hval] at hc; simp at hc
        | true =>
          rw [hval, if_pos rfl] at hc
          intro a ha
          rcases ih vs (asgn ++ [cand]) r hc a ha with h1 | ⟨w, hw, hdom⟩
          · rcases List.mem_append.mp h1 with h2 | h2
            · exact Or.inl h2
            · rw [List.mem_singleton] at h2
              subst h2
              exact Or.inr ⟨v, List.mem_cons_self v vs, hcand⟩
          · exact Or.inr ⟨w, List.mem_cons_of_mem v hw, hdom⟩

/-- The pairwise relation the search maintains: the later assignment has
a fresh var-id and passes its conflict check against the earlier one. -/
def PairOk (e later : Assignment) : Prop :=
  later.var.var_id ≠ e.var.var_id ∧ conflict_ok later e = true

/-- The committed list stays pairwise consistent through the search. -/
theorem backtrack_pairwise (s : Snapshot) :
    ∀ (fuel : Nat) (rest : List SessionVariable) (asgn r : List Assignment),
    backtrack s fuel rest asgn = some r → asgn.Pairwise PairOk →
    r.Pairwise PairOk := by
  intro fuel
  induction fuel with
  | zero => intro rest asgn r h; cases h
  | succ fuel ih =>
    intro rest asgn r h hp
    cases rest with
    | nil =>
      simp only [backtrack, Option.some.injEq] at h
      subst h
      exact hp
    | cons v vs =>
      simp only [backtrack] at h
      by_cases hemp : (generate_domain s v).isEmpty
      · rw [if_pos hemp] at h; cases h
      · rw [if_neg hemp] at h
        obtain ⟨cand, hcand, hc⟩ := List.exists_of_findSome?_eq_some h
        cases hval : is_valid asgn cand with
        | false => rw [hval] at hc; simp at hc
        | true =>
          rw [hval, if_pos rfl] at hc
          refine ih vs (asgn ++ [cand]) r hc ?_
          rw [List.pairwise_append]
          refine ⟨hp, by simp, ?_⟩
          intro x hx y hy
          rw [List.mem_singleton] at hy
          obtain ⟨h1, h2⟩ := (is_valid_iff asgn cand).mp hval
          exact hy ▸ ⟨Ne.symm (h1 x hx), h2 x hx⟩

/-- One recursive step of `_backtrack`: from state (v :: rest, asgn) the
source recurses on (rest, asgn ++ [a]) exactly for the domain candidates
`a` of `v` that pass `_is_valid` against the committed list. -/
inductive BStep (s : Snapshot) :
    List SessionVariable × List Assignment →
    List SessionVariable × List Assignment → Prop
  | step (v : SessionVariable) (rest : List SessionVariable)
      (asgn : List Assignment) (a : Assignment)
      (ha : a ∈ generate_domain s v) (hvalid : is_valid asgn a = true) :
      BStep s (v :: rest, asgn) (rest, asgn ++ [a])

/-- The call states of `_backtrack` reachable from a given state. -/
def Reaches (s : Snapshot) :
    List SessionVariable × List Assignment →
    List SessionVariable × List Assignment → Prop :=
  Relation.ReflTransGen (BStep s)

/-- Stack-shape invariant of the search: at every reachable call state,
the variables of the committed assignments are exactly the already
consumed prefix of the variable list, in order. -/
theorem reaches_invariant (s : Snapshot) (vars : List SessionVariable) :
    ∀ st, Reaches s (vars, []) st → st.2.map (fun a => a.var) ++ st.1 = vars := by
  intro st h
  induction h with
  | refl => simp
  | tail hr hstep ih =>
    cases hstep with
    | step v rest asgn a ha hval =>
      have hv : a.var = v := (mem_generate_domain s v a ha).1
      rw [← ih]
      simp [hv]

/-- A successful search call reaches the final state with no remaining
variables and the returned assignment list. -/
theorem backtrack_reaches (s : Snapshot) :
    ∀ (fuel : Nat) (rest : List SessionVariable) (asgn r : List Assignment),
    backtrack s fuel rest asgn = some r → Reaches s (rest, asgn) ([], r) := by
  intro fuel
  induction fuel with
  | zero => intro rest asgn r h; cases h
  | succ fuel ih =>
    intro rest asgn r h
    cases rest with
    | nil =>
      simp only [backtrack, Option.some.injEq] at h
      subst h
      exact Relation.ReflTransGen.refl
    | cons v vs =>
      simp only [backtrack] at h
      by_cases hemp : (generate_domain s v).isEmpty
      · rw [if_pos hemp] at h; cases h
      · rw [if_neg hemp] at h
        obtain ⟨cand, hcand, hc⟩ := List.exists_of_findSome?_eq_some h
        cases hval : is_valid asgn cand with
        | false => rw [hval] at hc; simp at hc
        | true =>
          rw [hval, if_pos rfl] at hc
          exact Relation.ReflTransGen.head
            (BStep.step v vs asgn cand hcand hval)
            (ih vs (asgn ++ [cand]) r hc)

/-- A variable with an empty domain anywhere in the remaining list makes
the search fail, whatever the fuel and the committed assignments. -/
theorem backtrack_empty_domain (s : Snapshot) :
    ∀ (fuel : Nat) (rest : List SessionVariable) (asgn : List Assignment)
    (v : SessionVariable), v ∈ rest → generate_domain s v = [] →
    backtrack s fuel rest asgn = none := by
  intro fuel
  induction fuel with
  | zero => intro rest asgn v hv hdom; rfl
  | succ fuel ih =>
    intro rest asgn v hv hdom
    cases rest with
    | nil => cases hv
    | cons w ws =>
      simp only [backtrack]
      rcases List.mem_cons.mp hv with h1 | h1
      · subst h1
        rw [if_pos (by simp [hdom])]
      · by_cases hemp : (generate_domain s w).isEmpty
        · rw [if_pos hemp]
        · rw [if_neg hemp]
          apply List.findSome?_eq_none_iff.mpr
          intro cand hcand
          cases hval : is_valid asgn cand with
          | false => rfl
          | true => rw [if_pos rfl]; exact ih ws (asgn ++ [cand]) v h1 hdom

/-! ## Var-ids of the emission are dense and consecutive -/

theorem range'_split (s m k : Nat) :
    List.range' s (m + k) = List.range' s m ++ List.range' (s + m) k := by
  have h := List.range'_append s m k 1
  rw [one_mul] at h
  rw [Nat.add_comm m k, ← h]

theorem allSections_map_var_id (c : Course) (g : Group) :
    ∀ (secs : List Section) (n : Nat),
    (allSections c g secs n).map (fun v => v.var_id) =
      List.range' n (allSections c g secs n).length := by
  intro secs
  induction secs with
  | nil => intro n; simp [allSections]
  | cons sec rest ih =>
    intro n
    simp only [allSections, List.map_cons, List.length_cons]
    rw [ih]
    rw [show (allSections c g rest (n + 2)).length + 1 + 1 =
      2 + (allSections c g rest (n + 2)).length by omega]
    rw [range'_split n 2 _]
    simp [mkLabVar, mkTutorialVar, List.range']

theorem allGroups_map_var_id (s : Snapshot) (c : Course) :
    ∀ (gs : List Group) (n : Nat),
    (allGroups s c gs n).map (fun v => v.var_id) =
      List.range' n (allGroups s c gs n).length := by
  intro gs
  induction gs with
  | nil => intro n; simp [allGroups]
  | cons g rest ih =>
    intro n
    simp only [allGroups, List.map_append, List.map_cons, List.length_append,
      List.length_cons]
    rw [allSections_map_var_id, ih]
    rw [range'_split n ((allSections c g
      (s.sections.filter (fun sec => sec.group_id == g.group_id)) (n + 1)).length + 1) _]
    rw [show (allSections c g
      (s.sections.filter (fun sec => sec.group_id == g.group_id)) (n + 1)).length + 1 =
      1 + (allSections c g
        (s.sections.filter (fun sec => sec.group_id == g.group_id)) (n + 1)).length
      from Nat.add_comm _ _]
    rw [range'_split n 1 _]
    simp [mkLectureVar, List.range', Nat.add_assoc]

theorem allCourses_map_var_id (s : Snapshot) :
    ∀ (cs : List Course) (n : Nat),
    (allCourses s cs n).map (fun v => v.var_id) =
      List.range' n (allCourses s cs n).length := by
  intro cs
  induction cs with
  | nil => intro n; simp [allCourses]
  | cons c rest ih =>
    intro n
    simp only [allCourses, List.map_append, List.length_append]
    rw [allGroups_map_var_id, ih, range'_split]

/-- The full emission carries dense var-ids 0..N-1 in order. -/
theorem allVariables_map_var_id (s : Snapshot) :
    (allVariables s).map (fun v => v.var_id) = List.range (allVariables s).length := by
  rw [allVariables, allCourses_map_var_id, List.range_eq_range']

/-! ## `_save_schedule`: the persistence model

The store holds the two tables `_save_schedule` writes. The SQLAlchemy
session is modelled by the pending state threaded through the insertion
loop: `db.delete` + `db.commit` commit the cleared schedule table first,
the timeslot upserts and schedule inserts stay pending (visible to the
in-session `find?` lookups) until the final `db.commit`, and a failure
discards the pending state (the session rollback), leaving whatever was
last committed. -/

structure TimeSlotRow where
  timeslot_id : Nat
  day : String
  start_time : String
  end_time : String
  duration : Nat
deriving DecidableEq, Repr

structure ScheduleRow where
  course_id : Nat
  group_id : Option Nat
  section_id : Option Nat
  timeslot_id : Nat
  room_id : Nat
  instructor_id : Option Nat
  ta_id : Option Nat
  session_type : String
deriving DecidableEq, Repr

structure Store where
  timeslots : List TimeSlotRow
  schedule : List ScheduleRow
deriving DecidableEq, Repr

/-- `SessionType.value` of the Python enum. -/
def SessionType.value : SessionType → String
  | .LECTURE => "LECTURE"
  | .LAB => "LAB"
  | .TUTORIAL => "TUTORIAL"

/-- A fresh timeslot primary key (the autoincrement the `db.flush`
obtains). -/
def freshTimeslotId (st : Store) : Nat :=
  (st.timeslots.map (fun t => t.timeslot_id)).foldr max 0 + 1

/-- One iteration of the `_save_schedule` loop: find or create the
timeslot for the assignment's day and wall-clock range, then add the
schedule row. -/
def insertOne (st : Store) (a : Assignment) : Store :=
  let sstr := a.start_time ++ ":00"
  let estr := a.end_time ++ ":00"
  let duration_minutes := if a.var.duration_blocks == 2 then 90 else 45
  match st.timeslots.find? (fun t =>
      t.day == a.day && t.start_time == sstr && t.end_time == estr) with
  | some t =>
    { st with schedule := st.schedule ++ [{
        course_id := a.var.course_id, group_id := a.var.group_id,
        section_id := a.var.section_id, timeslot_id := t.timeslot_id,
        room_id := a.room_id, instructor_id := a.instructor_id,
        ta_id := a.ta_id, session_type := a.var.session_type.value }] }
  | none =>
    let tid := freshTimeslotId st
    { timeslots := st.timeslots ++ [{
        timeslot_id := tid, day := a.day, start_time := sstr, end_time := estr,
        duration := duration_minutes }],
      schedule := st.schedule ++ [{
        course_id := a.var.course_id, group_id := a.var.group_id,
        section_id := a.var.section_id, timeslot_id := tid,
        room_id := a.room_id, instructor_id := a.instructor_id,
        ta_id := a.ta_id, session_type := a.var.session_type.value }] }

/-- The insertion loop with a failure injection point: `fail? = some k`
means processing of the k-th assignment raises. -/
def runInserts (fail? : Option Nat) : List Assignment → Nat → Store → Option Store
  | [], _, st => some st
  | a :: rest, idx, st =>
    if fail? == some idx then none
    else runInserts fail? rest (idx + 1) (insertOne st a)

/-- `_save_schedule`: clear the schedule table and COMMIT that deletion,
then run the inserts; commit them on success, roll the pending ones back
on failure. Returns the committed store and a success flag. -/
def save_schedule (st : Store) (assignments : List Assignment)
    (fail? : Option Nat) : Store × Bool :=
  let cleared : Store := { st with schedule := [] }
  match runInserts fail? assignments 0 cleared with
  | some final => (final, true)
  | none => (cleared, false)

/-- A failure at any assignment index inside the list makes the
insertion loop fail, whatever the starting store. -/
theorem runInserts_fail (k : Nat) :
    ∀ (assignments : List Assignment) (idx : Nat) (st : Store),
    idx ≤ k → k < idx + assignments.length →
    runInserts (some k) assignments idx st = none := by
  intro assignments
  induction assignments with
  | nil => intro idx st h1 h2; simp at h2; omega
  | cons a rest ih =>
    intro idx st h1 h2
    rw [runInserts]
    by_cases hk : k = idx
    · rw [if_pos (by simp [hk])]
    · rw [if_neg (by simp; omega)]
      exact ih (idx + 1) (insertOne st a) (by omega) (by simp at h2; omega)

/-! ## The claim-C5 rendering of the spec enumeration order -/

/-- Insertion into an ascending list (used only to render the spec order
of claim C5 executably). -/
def insertAsc (le : α → α → Bool) (x : α) : List α → List α
  | [] => [x]
  | y :: ys => if le x y then x :: y :: ys else y :: insertAsc le x ys

/-- Ascending insertion sort (used only to render the spec order of
claim C5 executably). -/
def sortAsc (le : α → α → Bool) : List α → List α
  | [] => []
  | x :: xs => insertAsc le x (sortAsc le xs)

/-- Modelled from the spec words of claim C5: the group loop taken in
ascending group-number order and each group's sections in ascending
section-number order (the code itself queries without an order). -/
def specGroupVars (s : Snapshot) (c : Course) : List Group → Nat → List SessionVariable
  | [], _ => []
  | g :: rest, n =>
    let secs := allSections c g
      (sortAsc (fun x y => x.section_number ≤ y.section_number)
        (s.sections.filter (fun sec => sec.group_id == g.group_id))) (n + 1)
    (mkLectureVar c g n :: secs) ++ specGroupVars s c rest (n + 1 + secs.length)

/-- Modelled from the spec words of claim C5: the course loop, with each
course's groups sorted by group number. -/
def specCourseVars (s : Snapshot) : List Course → Nat → List SessionVariable
  | [], _ => []
  | c :: rest, n =>
    let vs := specGroupVars s c
      (sortAsc (fun x y => x.group_number ≤ y.group_number)
        (s.groups.filter (fun g => g.level_id == c.level_id))) n
    vs ++ specCourseVars s rest (n + vs.length)

/-- Modelled from the spec words of claim C5: the emission in the
claimed order (snapshot course order, ascending group-number order,
ascending section-number order). -/
def specVariablesC5 (s : Snapshot) : List SessionVariable := specCourseVars s s.courses 0

/-- A snapshot whose store lists group number 2 before group number 1:
one course, two groups of the course's level, no sections, one Classroom
large enough for both lectures. -/
def snapC5 : Snapshot :=
  { buildings := [{ building_id := 1, building_name := "B1" }]
    rooms := [{ room_id := 1, building_id := 1, room_number := "R1",
                room_type := "Classroom", capacity := 60 }]
    courses := [{ course_id := 1, course_code := "C1", course_name := "Course 1",
                  level_id := 1, instructors := [], tas := [] }]
    groups := [{ group_id := 1, level_id := 1, group_number := 2, num_students := 20 },
               { group_id := 2, level_id := 1, group_number := 1, num_students := 20 }]
    sections := [] }

/-! ## Shape of the emitted variables -/

theorem mem_allSections (c : Course) (g : Group) :
    ∀ (secs : List Section) (n : Nat) (v : SessionVariable),
    v ∈ allSections c g secs n →
    ∃ sec ∈ secs, v = mkLabVar c g sec v.var_id ∨ v = mkTutorialVar c g sec v.var_id := by
  intro secs
  induction secs with
  | nil => intro n v h; cases h
  | cons sec rest ih =>
    intro n v h
    rcases List.mem_cons.mp h with h1 | h1
    · exact ⟨sec, by simp, Or.inl (by rw [h1]; rfl)⟩
    · rcases List.mem_cons.mp h1 with h2 | h2
      · exact ⟨sec, by simp, Or.inr (by rw [h2]; rfl)⟩
      · obtain ⟨sec2, hsec2, hor⟩ := ih (n + 2) v h2
        exact ⟨sec2, List.mem_cons_of_mem _ hsec2, hor⟩

theorem mem_allGroups (s : Snapshot) (c : Course) :
    ∀ (gs : List Group) (n : Nat) (v : SessionVariable),
    v ∈ allGroups s c gs n →
    ∃ g ∈ gs, v = mkLectureVar c g v.var_id ∨
      ∃ sec ∈ s.sections, sec.group_id = g.group_id ∧
        (v = mkLabVar c g sec v.var_id ∨ v = mkTutorialVar c g sec v.var_id) := by
  intro gs
  induction gs with
  | nil => intro n v h; cases h
  | cons g rest ih =>
    intro n v h
    rcases List.mem_append.mp h with h1 | h1
    · rcases List.mem_cons.mp h1 with h2 | h2
      · exact ⟨g, by simp, Or.inl (by rw [h2]; rfl)⟩
      · obtain ⟨sec, hsec, hor⟩ := mem_allSections c g _ _ v h2
        have hf := List.mem_filter.mp hsec
        exact ⟨g, by simp, Or.inr ⟨sec, hf.1, by simpa using hf.2, hor⟩⟩
    · obtain ⟨g2, hg2, hor⟩ := ih _ v h1
      exact ⟨g2, List.mem_cons_of_mem _ hg2, hor⟩

theorem mem_allCourses (s : Snapshot) :
    ∀ (cs : List Course) (n : Nat) (v : SessionVariable),
    v ∈ allCourses s cs n →
    ∃ c ∈ cs, ∃ g ∈ s.groups, g.level_id = c.level_id ∧
      (v = mkLectureVar c g v.var_id ∨
        ∃ sec ∈ s.sections, sec.group_id = g.group_id ∧
          (v = mkLabVar c g sec v.var_id ∨ v = mkTutorialVar c g sec v.var_id)) := by
  intro cs
  induction cs with
  | nil => intro n v h; cases h
  | cons c rest ih =>
    intro n v h
    rcases List.mem_append.mp h with h1 | h1
    · obtain ⟨g, hg, hor⟩ := mem_allGroups s c _ _ v h1
      have hf := List.mem_filter.mp hg
      exact ⟨c, by simp, g, hf.1, by simpa using hf.2, hor⟩
    · obtain ⟨c2, hc2, rest2⟩ := ih _ v h1
      exact ⟨c2, List.mem_cons_of_mem _ hc2, rest2⟩

/-- Every emitted variable is the lecture of some (course, group) of the
course's level, or the lab or tutorial of some (course, group, section)
of that group, built at its own var-id. -/
theorem mem_allVariables (s : Snapshot) (v : SessionVariable)
    (h : v ∈ allVariables s) :
    ∃ c ∈ s.courses, ∃ g ∈ s.groups, g.level_id = c.level_id ∧
      (v = mkLectureVar c g v.var_id ∨
        ∃ sec ∈ s.sections, sec.group_id = g.group_id ∧
          (v = mkLabVar c g sec v.var_id ∨ v = mkTutorialVar c g sec v.var_id)) :=
  mem_allCourses s s.courses 0 v h

/-! ## Inverting a successful `generate_schedule` -/

theorem generate_schedule_ok (s : Snapshot) (r : List Assignment)
    (h : generate_schedule s = .ok r) :
    ∃ vars, generate_variables s = .ok vars ∧
      backtrack s (vars.length + 1) vars [] = some r := by
  rw [generate_schedule] at h
  split at h
  · cases h
  · rename_i vars heq
    split at h
    · rename_i r2 hb
      cases h
      exact ⟨vars, heq, hb⟩
    · cases h

/-- A successful result is pairwise consistent. -/
theorem result_pairwise (s : Snapshot) (r : List Assignment)
    (h : generate_schedule s = .ok r) : r.Pairwise PairOk := by
  obtain ⟨vars, hg, hb⟩ := generate_schedule_ok s r h
  exact backtrack_pairwise s _ _ _ _ hb List.Pairwise.nil

/-! ## The claims -/

/-- Claim C2: for the scenario-1 snapshot, `generate_schedule` succeeds
with exactly 3 assignments: the LECTURE on Sunday blocks 0-1 in R1 by
I1, the LAB on Sunday blocks 2-3 in R2 by T1, and the TUTORIAL on Sunday
blocks 4-5 in R1 by T1 — the first solution under the fixed candidate
order (days, then start blocks, then rooms, then staff). -/
theorem claim_C2_scenario1_exact_result :
    generate_schedule snap1 = .ok [snap1_lecture, snap1_lab, snap1_tutorial] := rfl

/-- Claim C3: whenever some emitted variable has no room of its required
type with sufficient capacity, generation aborts with the capacity
message of the first such variable (in emission order) — a message
carrying its session type, cohort number, student count and room type —
and `generate_schedule` returns that error, so the backtracking search
is never entered. -/
theorem claim_C3_capacity_fail_fast (s : Snapshot)
    (h : ∃ v ∈ allVariables s, capacity_check s v = false) :
    ∃ v₀, (allVariables s).find? (fun v => !capacity_check s v) = some v₀ ∧
      capacity_check s v₀ = false ∧
      generate_variables s = .error (capacityMessage v₀) ∧
      generate_schedule s = .error (capacityMessage v₀) := by
  have hsome : ((allVariables s).find? (fun v => !capacity_check s v)).isSome := by
    rw [List.find?_isSome]
    obtain ⟨v, hv, hc⟩ := h
    exact ⟨v, hv, by simp [hc]⟩
  obtain ⟨v₀, hfind⟩ := Option.isSome_iff_exists.mp hsome
  refine ⟨v₀, hfind, ?_, ?_, ?_⟩
  · have hp := List.find?_some hfind
    simpa using hp
  · rw [generate_variables_eq, hfind]
  · rw [generate_schedule, generate_variables_eq, hfind]

/-- Claim C4: in a successful result, every LECTURE assignment carries a
qualified instructor of its course and a null TA, and every LAB or
TUTORIAL assignment carries a qualified TA of its course and a null
instructor: a lecture is never taught by a TA, a lab or tutorial never
by an instructor. -/
theorem claim_C4_role_purity_qualification (s : Snapshot) (r : List Assignment)
    (h : generate_schedule s = .ok r) :
    ∀ a ∈ r,
      (a.var.session_type = .LECTURE →
        a.ta_id = none ∧ ∃ i ∈ instructors_by_course s a.var.course_id,
          a.instructor_id = some i.instructor_id) ∧
      (a.var.session_type ≠ .LECTURE →
        a.instructor_id = none ∧ ∃ t ∈ tas_by_course s a.var.course_id,
          a.ta_id = some t.ta_id) := by
  obtain ⟨vars, hg, hb⟩ := generate_schedule_ok s r h
  intro a ha
  rcases backtrack_mem s _ _ _ _ hb a ha with h1 | ⟨v, hv, hdom⟩
  · cases h1
  · obtain ⟨hvar, -, -, -, -, -, hlec, hnon⟩ := mem_generate_domain s v a hdom
    rw [hvar]
    exact ⟨hlec, hnon⟩

/-- Claim C5, amended: on success the emission is the full ordered
variable list with dense var-ids 0..N-1, taking courses in snapshot
order, each course's groups in snapshot (store) order — not ascending
group-number order — with one LECTURE per group followed by, for each of
the group's sections in snapshot order, its LAB then its TUTORIAL. -/
theorem claim_C5_emission_order (s : Snapshot) (vars : List SessionVariable)
    (h : generate_variables s = .ok vars) :
    vars = allVariables s ∧
    vars.map (fun v => v.var_id) = List.range vars.length := by
  have h1 := generate_variables_ok s vars h
  refine ⟨h1, ?_⟩
  rw [h1, allVariables_map_var_id]

/-- Claim C5, counterexample: on a snapshot whose store lists group
number 2 before group number 1, generation emits the store order, which
differs from the ascending group-number order the claim asserts. -/
theorem claim_C5_counterexample :
    generate_variables snapC5 = .ok (allVariables snapC5) ∧
    allVariables snapC5 ≠ specVariablesC5 snapC5 := by
  refine ⟨rfl, ?_⟩
  decide

/-- Claim C6: every assignment in every generated domain (and hence
every assignment in a successful result) satisfies block legality: a
2-block session starts at 0, 2, 4 or 6, a 1-block session starts at
0..7, and start + duration never exceeds 8. -/
theorem claim_C6_block_legality (s : Snapshot) :
    (∀ (v : SessionVariable) (a : Assignment), a ∈ generate_domain s v →
      (v.duration_blocks = 2 → a.start_block = 0 ∨ a.start_block = 2 ∨
        a.start_block = 4 ∨ a.start_block = 6) ∧
      (v.duration_blocks = 1 → a.start_block < 8) ∧
      a.start_block + v.duration_blocks ≤ 8) ∧
    (∀ (r : List Assignment), generate_schedule s = .ok r → ∀ a ∈ r,
      (a.var.duration_blocks = 2 → a.start_block = 0 ∨ a.start_block = 2 ∨
        a.start_block = 4 ∨ a.start_block = 6) ∧
      (a.var.duration_blocks = 1 → a.start_block < 8) ∧
      a.start_block + a.var.duration_blocks ≤ 8) := by
  have hdom : ∀ (v : SessionVariable) (a : Assignment), a ∈ generate_domain s v →
      (v.duration_blocks = 2 → a.start_block = 0 ∨ a.start_block = 2 ∨
        a.start_block = 4 ∨ a.start_block = 6) ∧
      (v.duration_blocks = 1 → a.start_block < 8) ∧
      a.start_block + v.duration_blocks ≤ 8 := by
    intro v a h
    obtain ⟨hvar, hend, hle, h2, h1, -, -, -⟩ := mem_generate_domain s v a h
    refine ⟨?_, ?_, ?_⟩
    · intro hd
      simpa [VALID_START_BLOCKS] using h2 hd
    · intro hd
      simpa [BLOCKS_PER_DAY] using h1 (by omega)
    · simpa [BLOCKS_PER_DAY] using hle
  refine ⟨hdom, ?_⟩
  intro r hr a ha
  obtain ⟨vars, hg, hb⟩ := generate_schedule_ok s r hr
  rcases backtrack_mem s _ _ _ _ hb a ha with h1 | ⟨v, hv, hd2⟩
  · cases h1
  · have hres := hdom v a hd2
    obtain ⟨hvar, -, -, -, -, -, -, -⟩ := mem_generate_domain s v a hd2
    rw [hvar]
    exact hres

/-- Claim C7: every generated variable follows the §3 derivation tables:
a LECTURE lasts 2 blocks and needs a Theater when its group has more
than 100 students, else a Classroom; a LAB lasts 2 blocks and needs a
Lab; a TUTORIAL needs a Classroom and lasts 1 block when its section has
at most 15 students, else 2. -/
theorem claim_C7_derived_attributes (s : Snapshot) (vars : List SessionVariable)
    (h : generate_variables s = .ok vars) :
    ∀ v ∈ vars,
      (v.session_type = .LECTURE → v.duration_blocks = 2 ∧
        ∃ g ∈ s.groups, v.group_id = some g.group_id ∧
          v.student_count = g.num_students ∧
          v.required_room_type = (if g.num_students > 100 then "Theater" else "Classroom")) ∧
      (v.session_type = .LAB → v.duration_blocks = 2 ∧ v.required_room_type = "Lab") ∧
      (v.session_type = .TUTORIAL → v.required_room_type = "Classroom" ∧
        ∃ sec ∈ s.sections, v.section_id = some sec.section_id ∧
          v.student_count = sec.num_students ∧
          v.duration_blocks = (if sec.num_students ≤ 15 then 1 else 2)) := by
  intro v hv
  rw [generate_variables_ok s vars h] at hv
  obtain ⟨c, hc, g, hg, hlev, hshape⟩ := mem_allVariables s v hv
  rcases hshape with h1 | ⟨sec, hsec, hgid, h2 | h2⟩
  · refine ⟨fun _ => ?_, fun hbad => ?_, fun hbad => ?_⟩
    · rw [h1]
      exact ⟨rfl, g, hg, rfl, rfl, rfl⟩
    · rw [h1] at hbad; simp [mkLectureVar] at hbad
    · rw [h1] at hbad; simp [mkLectureVar] at hbad
  · refine ⟨fun hbad => ?_, fun _ => ?_, fun hbad => ?_⟩
    · rw [h2] at hbad; simp [mkLabVar] at hbad
    · rw [h2]
      exact ⟨rfl, rfl⟩
    · rw [h2] at hbad; simp [mkLabVar] at hbad
  · refine ⟨fun hbad => ?_, fun hbad => ?_, fun _ => ?_⟩
    · rw [h2] at hbad; simp [mkTutorialVar] at hbad
    · rw [h2] at hbad; simp [mkTutorialVar] at hbad
    · rw [h2]
      exact ⟨rfl, sec, hsec, rfl, rfl, rfl⟩

/-- Claim C8: when a generated LAB or TUTORIAL variable has no qualified
TA for its course (in a snapshot whose variables otherwise generate
without a capacity failure), its domain is empty, the run fails with the
NoSchedule message, and in particular the session is never assigned to
an instructor. -/
theorem claim_C8_no_qualified_tas (s : Snapshot) (vars : List SessionVariable)
    (v : SessionVariable)
    (h : generate_variables s = .ok vars) (hv : v ∈ vars)
    (hnlec : v.session_type ≠ .LECTURE)
    (hta : tas_by_course s v.course_id = []) :
    generate_domain s v = [] ∧
    generate_schedule s =
      .error "Could not find valid schedule. Constraints are too tight." := by
  have hdom : generate_domain s v = [] := by
    rw [generate_domain]
    rw [if_neg (by simpa using hnlec)]
    rw [if_pos (by simp [hta])]
  have hback := backtrack_empty_domain s (vars.length + 1) vars [] v hv hdom
  refine ⟨hdom, ?_⟩
  simp only [generate_schedule, h]
  rw [hback]

/-- A store with one pre-existing schedule row and no timeslots, used to
exhibit the non-atomicity of `_save_schedule`. -/
def storeC9 : Store :=
  { timeslots := []
    schedule := [{ course_id := 1, group_id := some 1, section_id := none,
                   timeslot_id := 1, room_id := 1, instructor_id := some 1,
                   ta_id := none, session_type := "LECTURE" }] }

/-- Claim C9, amended: persistence is not atomic as claimed. The
clearing of the existing schedule is committed on its own before any
insert; a failure while processing any assignment rolls back only the
pending inserts, leaving the store with the schedule table cleared and
the timeslots unchanged (so no partial assignment rows are persisted,
but the previous schedule is already lost). -/
theorem claim_C9_persistence (st : Store) (assignments : List Assignment)
    (k : Nat) (hk : k < assignments.length) :
    save_schedule st assignments (some k) = ({ st with schedule := [] }, false) := by
  rw [save_schedule,
    runInserts_fail k assignments 0 { st with schedule := [] } (by omega) (by omega)]

/-- Claim C9, counterexample to the claim as stated: a failure while
writing the first assignment leaves the store changed — its existing
schedule row is gone, because the deletion was committed before the
inserts began. -/
theorem claim_C9_counterexample :
    (save_schedule storeC9 [snap1_lecture] (some 0)).1 ≠ storeC9 ∧
    (save_schedule storeC9 [snap1_lecture] (some 0)).2 = false := by
  exact ⟨by decide, rfl⟩

/-- Witness for claim C9: the amended statement applied to the concrete
store and a one-assignment batch failing at index 0. -/
theorem claim_C9_witness :
    0 < ([snap1_lecture] : List Assignment).length ∧
    save_schedule storeC9 [snap1_lecture] (some 0) =
      ({ storeC9 with schedule := [] }, false) :=
  ⟨by decide, claim_C9_persistence storeC9 [snap1_lecture] 0 (by decide)⟩

/-- Claim C10: at every recursive call the search started on the
generated variables reaches — in any run, successful or not — the
committed assignments cover exactly the consumed prefix of the variable
list, one per variable in order (their count equals the call depth),
and the var-id uniqueness branch of `_is_valid` accepts every candidate
of the current variable (it never fires); when the search succeeds it
returns exactly one assignment per generated variable, in var-id
order. -/
theorem claim_C10_search_invariant (s : Snapshot) (vars : List SessionVariable)
    (h1 : generate_variables s = .ok vars) :
    (∀ rest asgn, Reaches s (vars, []) (rest, asgn) →
      asgn.map (fun a => a.var) ++ rest = vars ∧
      asgn.length = vars.length - rest.length) ∧
    (∀ v rest asgn, Reaches s (vars, []) (v :: rest, asgn) →
      ∀ a ∈ generate_domain s v,
        asgn.all (fun e => !(e.var.var_id == a.var.var_id)) = true) ∧
    (∀ r, backtrack s (vars.length + 1) vars [] = some r →
      r.map (fun a => a.var) = vars) := by
  have hids : (vars.map (fun v => v.var_id)).Nodup := by
    rw [generate_variables_ok s vars h1, allVariables_map_var_id]
    exact List.nodup_range _
  refine ⟨?_, ?_, ?_⟩
  · intro rest asgn hre
    have hinv := reaches_invariant s vars (rest, asgn) hre
    refine ⟨hinv, ?_⟩
    have hlen := congrArg List.length hinv
    simp at hlen
    omega
  · intro v rest asgn hre a hadom
    have hinv := reaches_invariant s vars (v :: rest, asgn) hre
    have hvar : a.var = v := (mem_generate_domain s v a hadom).1
    rw [← hinv, List.map_append, List.nodup_append] at hids
    obtain ⟨-, -, hdis⟩ := hids
    rw [List.all_eq_true]
    intro e he
    have hmem1 : e.var.var_id ∈ (asgn.map (fun a => a.var)).map (fun v => v.var_id) := by
      simp
      exact ⟨e, he, rfl⟩
    have hmem2 : v.var_id ∈ ((v :: rest).map (fun v => v.var_id)) := by simp
    have hne : e.var.var_id ≠ v.var_id := fun heq => hdis hmem1 (heq ▸ hmem2)
    simpa [hvar] using hne
  · intro r h2
    have hfin := reaches_invariant s vars ([], r) (backtrack_reaches s _ _ _ _ h2)
    simpa using hfin

/-- Claim C1, amended: in a successful result, any two assignments on
the same day with overlapping block ranges share no room-id, no nonzero
instructor-id and no nonzero ta-id, are not two LECTUREs of one group
(H1), not a LECTURE and a LAB/TUTORIAL of one group in either order
(H2), and no two non-LECTUREs share a nonzero section-id (H3); the
staff and section clash guards of the source use Python truthiness, so
an id of 0 is treated as unset and exempt from them. Two non-LECTURE
variables of different sections pass the hierarchy check, so their
overlap is permitted. -/
theorem claim_C1_no_pairwise_conflict (s : Snapshot) (r : List Assignment)
    (h : generate_schedule s = .ok r)
    (l1 l2 l3 : List Assignment) (a1 a2 : Assignment)
    (hsplit : r = l1 ++ a1 :: l2 ++ a2 :: l3)
    (hday : a1.day = a2.day)
    (hov : a1.start_block < a2.end_block ∧ a2.start_block < a1.end_block) :
    (a1.room_id ≠ a2.room_id ∧
     (∀ x, x ≠ 0 → a1.instructor_id = some x → a2.instructor_id ≠ some x) ∧
     (∀ x, x ≠ 0 → a1.ta_id = some x → a2.ta_id ≠ some x) ∧
     ¬(a1.var.session_type = .LECTURE ∧ a2.var.session_type = .LECTURE ∧
       a1.var.group_id = a2.var.group_id) ∧
     ¬(a1.var.session_type = .LECTURE ∧ a2.var.session_type ≠ .LECTURE ∧
       a1.var.group_id = a2.var.group_id) ∧
     ¬(a2.var.session_type = .LECTURE ∧ a1.var.session_type ≠ .LECTURE ∧
       a1.var.group_id = a2.var.group_id) ∧
     ¬(a1.var.session_type ≠ .LECTURE ∧ a2.var.session_type ≠ .LECTURE ∧
       ∃ sid, sid ≠ 0 ∧ a1.var.section_id = some sid ∧
         a2.var.section_id = some sid)) ∧
    (∀ v1 v2 : SessionVariable, v1.session_type ≠ .LECTURE →
      v2.session_type ≠ .LECTURE → v1.section_id ≠ v2.section_id →
      check_hierarchy v1 v2 = true) := by
  have hpw := result_pairwise s r h
  rw [hsplit, List.pairwise_append] at hpw
  obtain ⟨-, -, hcross⟩ := hpw
  have hpair : PairOk a1 a2 :=
    hcross a1 (List.mem_append.mpr (Or.inr (List.mem_cons_self a1 l2))) a2
      (List.mem_cons_self a2 l3)
  obtain ⟨hid, hok⟩ := hpair
  obtain ⟨hroom, hinst, hta, hhier⟩ :=
    conflict_ok_elim a2 a1 hok hday.symm hov
  obtain ⟨hH1, hH2a, hH2b, hH3⟩ := check_hierarchy_elim a2.var a1.var hhier
  refine ⟨⟨?_, ?_, ?_, ?_, ?_, ?_, ?_⟩,
    fun v1 v2 p1 p2 p3 => check_hierarchy_different_sections v1 v2 p1 p2 p3⟩
  · exact fun heq => hroom heq.symm
  · intro x hx0 hx1 hx2
    exact hinst ⟨by simp [hx2, truthy, hx0], hx2.trans hx1.symm⟩
  · intro x hx0 hx1 hx2
    exact hta ⟨by simp [hx2, truthy, hx0], hx2.trans hx1.symm⟩
  · rintro ⟨p1, p2, p3⟩
    exact hH1 ⟨p2, p1, p3.symm⟩
  · rintro ⟨p1, p2, p3⟩
    exact hH2b ⟨p1, p2, p3.symm⟩
  · rintro ⟨p1, p2, p3⟩
    exact hH2a ⟨p1, p2, p3⟩
  · rintro ⟨p1, p2, sid, hs0, q1, q2⟩
    exact hH3 ⟨p2, p1, sid, hs0, q2, q1⟩

/-! ## Concrete instantiations of the claims -/

/-- A snapshot whose only room is a 10-seat Classroom while the only
group has 50 students: the lecture variable fails the capacity check. -/
def snapC3 : Snapshot :=
  { buildings := [⟨1, "B1"⟩]
    rooms := [⟨1, 1, "R1", "Classroom", 10⟩]
    courses := [⟨1, "C1", "Course 1", 1, [], []⟩]
    groups := [⟨1, 1, 1, 50⟩]
    sections := [] }

/-- Witness for claim C3: the capacity fail-fast applied to `snapC3`. -/
theorem claim_C3_witness :
    (∃ v ∈ allVariables snapC3, capacity_check snapC3 v = false) ∧
    (∃ v₀, (allVariables snapC3).find? (fun v => !capacity_check snapC3 v) = some v₀ ∧
      capacity_check snapC3 v₀ = false ∧
      generate_variables snapC3 = .error (capacityMessage v₀) ∧
      generate_schedule snapC3 = .error (capacityMessage v₀)) :=
  ⟨by decide, claim_C3_capacity_fail_fast snapC3 (by decide)⟩

/-- Witness for claim C4: role purity of the scenario-1 LAB assignment. -/
theorem claim_C4_witness :
    (snap1_lab.var.session_type = SessionType.LECTURE →
      snap1_lab.ta_id = none ∧
      ∃ i ∈ instructors_by_course snap1 snap1_lab.var.course_id,
        snap1_lab.instructor_id = some i.instructor_id) ∧
    (snap1_lab.var.session_type ≠ SessionType.LECTURE →
      snap1_lab.instructor_id = none ∧
      ∃ t ∈ tas_by_course snap1 snap1_lab.var.course_id,
        snap1_lab.ta_id = some t.ta_id) :=
  claim_C4_role_purity_qualification snap1
    [snap1_lecture, snap1_lab, snap1_tutorial] rfl snap1_lab (by decide)

/-- Witness for claim C5 (amended): the scenario-1 emission with its
dense var-ids. -/
theorem claim_C5_witness :
    allVariables snap1 = allVariables snap1 ∧
    (allVariables snap1).map (fun v => v.var_id) =
      List.range (allVariables snap1).length :=
  claim_C5_emission_order snap1 (allVariables snap1) rfl

/-- Witness for claim C6: block legality of the scenario-1 TUTORIAL
domain element that the search selected. -/
theorem claim_C6_witness :
    (snap1_tutorial.var.duration_blocks = 2 → snap1_tutorial.start_block = 0 ∨
      snap1_tutorial.start_block = 2 ∨ snap1_tutorial.start_block = 4 ∨
      snap1_tutorial.start_block = 6) ∧
    (snap1_tutorial.var.duration_blocks = 1 → snap1_tutorial.start_block < 8) ∧
    snap1_tutorial.start_block + snap1_tutorial.var.duration_blocks ≤ 8 :=
  (claim_C6_block_legality snap1).1 snap1_tutorial.var snap1_tutorial (by decide)

/-- Witness for claim C7: the derived attributes of the scenario-1 LAB
variable. -/
theorem claim_C7_witness :
    (snap1_lab.var.session_type = SessionType.LECTURE →
      snap1_lab.var.duration_blocks = 2 ∧
      ∃ g ∈ snap1.groups, snap1_lab.var.group_id = some g.group_id ∧
        snap1_lab.var.student_count = g.num_students ∧
        snap1_lab.var.required_room_type =
          (if g.num_students > 100 then "Theater" else "Classroom")) ∧
    (snap1_lab.var.session_type = SessionType.LAB →
      snap1_lab.var.duration_blocks = 2 ∧
      snap1_lab.var.required_room_type = "Lab") ∧
    (snap1_lab.var.session_type = SessionType.TUTORIAL →
      snap1_lab.var.required_room_type = "Classroom" ∧
      ∃ sec ∈ snap1.sections, snap1_lab.var.section_id = some sec.section_id ∧
        snap1_lab.var.student_count = sec.num_students ∧
        snap1_lab.var.duration_blocks = (if sec.num_students ≤ 15 then 1 else 2)) :=
  claim_C7_derived_attributes snap1 (allVariables snap1) rfl snap1_lab.var (by decide)

/-- Scenario 6 of §8: the scenario-1 snapshot with the TA list emptied —
the course has an instructor but zero qualified TAs. -/
def snapC8 : Snapshot :=
  { buildings := [{ building_id := 1, building_name := "B1" }]
    rooms := [
      { room_id := 1, building_id := 1, room_number := "R1", room_type := "Classroom",
        capacity := 60 },
      { room_id := 2, building_id := 1, room_number := "R2", room_type := "Lab",
        capacity := 60 }]
    courses := [
      { course_id := 1, course_code := "C1", course_name := "Course 1", level_id := 1,
        instructors := [{ instructor_id := 1, instructor_name := "I1" }],
        tas := [] }]
    groups := [{ group_id := 1, level_id := 1, group_number := 1, num_students := 50 }]
    sections := [{ section_id := 1, level_id := 1, group_id := 1, section_number := 1,
                   num_students := 50 }] }

/-- The LAB variable the generator emits for `snapC8`. -/
def snapC8_lab : SessionVariable :=
  { var_id := 1, course_id := 1, course_code := "C1", course_name := "Course 1",
    session_type := .LAB, duration_blocks := 2, student_count := 50,
    required_room_type := "Lab", level_id := 1, group_id := some 1,
    group_number := some 1, section_id := some 1, section_number := some 1 }

/-- Witness for claim C8: with zero qualified TAs the LAB domain is
empty and the run fails with the NoSchedule message. -/
theorem claim_C8_witness :
    generate_domain snapC8 snapC8_lab = [] ∧
    generate_schedule snapC8 =
      .error "Could not find valid schedule. Constraints are too tight." :=
  claim_C8_no_qualified_tas snapC8 (allVariables snapC8) snapC8_lab rfl
    (by decide) (by decide) rfl

/-- Witness for claim C10: the search invariants on the scenario-1 run. -/
theorem claim_C10_witness :
    (∀ rest asgn, Reaches snap1 (allVariables snap1, []) (rest, asgn) →
      asgn.map (fun a => a.var) ++ rest = allVariables snap1 ∧
      asgn.length = (allVariables snap1).length - rest.length) ∧
    (∀ v rest asgn, Reaches snap1 (allVariables snap1, []) (v :: rest, asgn) →
      ∀ a ∈ generate_domain snap1 v,
        asgn.all (fun e => !(e.var.var_id == a.var.var_id)) = true) ∧
    (∀ r, backtrack snap1 ((allVariables snap1).length + 1) (allVariables snap1) [] =
        some r →
      r.map (fun a => a.var) = allVariables snap1) :=
  claim_C10_search_invariant snap1 (allVariables snap1) rfl

/-- A snapshot with two courses at two levels, one group each, two
Classrooms and two instructors: the first solution schedules both
lectures on Sunday blocks 0-1, overlapping in time in different rooms. -/
def snapW : Snapshot :=
  { buildings := [⟨1, "B1"⟩]
    rooms := [⟨1, 1, "R1", "Classroom", 60⟩, ⟨2, 1, "R2", "Classroom", 60⟩]
    courses := [⟨1, "C1", "Course 1", 1, [⟨1, "I1"⟩], []⟩,
                ⟨2, "C2", "Course 2", 2, [⟨2, "I2"⟩], []⟩]
    groups := [⟨1, 1, 1, 30⟩, ⟨2, 2, 1, 30⟩]
    sections := [] }

/-- The first assignment of the `snapW` run: lecture of C1, Sunday
blocks 0-1, R1, I1. -/
def snapW_l1 : Assignment :=
  { var := { var_id := 0, course_id := 1, course_code := "C1", course_name := "Course 1",
             session_type := .LECTURE, duration_blocks := 2, student_count := 30,
             required_room_type := "Classroom", level_id := 1, group_id := some 1,
             group_number := some 1 }
    day := "Sunday", start_block := 0, end_block := 2, room_id := 1, room_number := "R1",
    building_name := "B1", instructor_id := some 1, instructor_name := some "I1" }

/-- The second assignment of the `snapW` run: lecture of C2, Sunday
blocks 0-1, R2, I2 — overlapping the first in time. -/
def snapW_l2 : Assignment :=
  { var := { var_id := 1, course_id := 2, course_code := "C2", course_name := "Course 2",
             session_type := .LECTURE, duration_blocks := 2, student_count := 30,
             required_room_type := "Classroom", level_id := 2, group_id := some 2,
             group_number := some 1 }
    day := "Sunday", start_block := 0, end_block := 2, room_id := 2, room_number := "R2",
    building_name := "B1", instructor_id := some 2, instructor_name := some "I2" }

/-- Witness for claim C1: the two overlapping same-day lectures of the
`snapW` run violate no hard constraint. -/
theorem claim_C1_witness :
    (snapW_l1.room_id ≠ snapW_l2.room_id ∧
     (∀ x, x ≠ 0 → snapW_l1.instructor_id = some x → snapW_l2.instructor_id ≠ some x) ∧
     (∀ x, x ≠ 0 → snapW_l1.ta_id = some x → snapW_l2.ta_id ≠ some x) ∧
     ¬(snapW_l1.var.session_type = SessionType.LECTURE ∧
       snapW_l2.var.session_type = SessionType.LECTURE ∧
       snapW_l1.var.group_id = snapW_l2.var.group_id) ∧
     ¬(snapW_l1.var.session_type = SessionType.LECTURE ∧
       snapW_l2.var.session_type ≠ SessionType.LECTURE ∧
       snapW_l1.var.group_id = snapW_l2.var.group_id) ∧
     ¬(snapW_l2.var.session_type = SessionType.LECTURE ∧
       snapW_l1.var.session_type ≠ SessionType.LECTURE ∧
       snapW_l1.var.group_id = snapW_l2.var.group_id) ∧
     ¬(snapW_l1.var.session_type ≠ SessionType.LECTURE ∧
       snapW_l2.var.session_type ≠ SessionType.LECTURE ∧
       ∃ sid, sid ≠ 0 ∧ snapW_l1.var.section_id = some sid ∧
         snapW_l2.var.section_id = some sid)) ∧
    (∀ v1 v2 : SessionVariable, v1.session_type ≠ SessionType.LECTURE →
      v2.session_type ≠ SessionType.LECTURE → v1.section_id ≠ v2.section_id →
      check_hierarchy v1 v2 = true) :=
  claim_C1_no_pairwise_conflict snapW [snapW_l1, snapW_l2] rfl [] [] []
    snapW_l1 snapW_l2 rfl rfl (by decide)

/-- The `snapW` layout with the single instructor id 0 qualified for
both courses: the source's truthiness guard skips the instructor clash
check for id 0. -/
def snapC1cex : Snapshot :=
  { buildings := [⟨1, "B1"⟩]
    rooms := [⟨1, 1, "R1", "Classroom", 60⟩, ⟨2, 1, "R2", "Classroom", 60⟩]
    courses := [⟨1, "C1", "Course 1", 1, [⟨0, "I0"⟩], []⟩,
                ⟨2, "C2", "Course 2", 2, [⟨0, "I0"⟩], []⟩]
    groups := [⟨1, 1, 1, 30⟩, ⟨2, 2, 1, 30⟩]
    sections := [] }

/-- First assignment of the `snapC1cex` run: lecture of C1, Sunday
blocks 0-1, R1, instructor 0. -/
def snapC1cex_l1 : Assignment :=
  { var := { var_id := 0, course_id := 1, course_code := "C1", course_name := "Course 1",
             session_type := .LECTURE, duration_blocks := 2, student_count := 30,
             required_room_type := "Classroom", level_id := 1, group_id := some 1,
             group_number := some 1 }
    day := "Sunday", start_block := 0, end_block := 2, room_id := 1, room_number := "R1",
    building_name := "B1", instructor_id := some 0, instructor_name := some "I0" }

/-- Second assignment of the `snapC1cex` run: lecture of C2, Sunday
blocks 0-1, R2, also instructor 0 — overlapping the first with the same
instructor id. -/
def snapC1cex_l2 : Assignment :=
  { var := { var_id := 1, course_id := 2, course_code := "C2", course_name := "Course 2",
             session_type := .LECTURE, duration_blocks := 2, student_count := 30,
             required_room_type := "Classroom", level_id := 2, group_id := some 2,
             group_number := some 1 }
    day := "Sunday", start_block := 0, end_block := 2, room_id := 2, room_number := "R2",
    building_name := "B1", instructor_id := some 0, instructor_name := some "I0" }

/-- Claim C1, counterexample to the claim as stated: with instructor id
0 qualified for two courses, the run succeeds with two assignments on
the same day and overlapping blocks that share an instructor-id — the
truthiness guard of the source never rejects the clash for id 0. -/
theorem claim_C1_counterexample :
    generate_schedule snapC1cex = .ok [snapC1cex_l1, snapC1cex_l2] ∧
    snapC1cex_l1.day = snapC1cex_l2.day ∧
    snapC1cex_l1.start_block < snapC1cex_l2.end_block ∧
    snapC1cex_l2.start_block < snapC1cex_l1.end_block ∧
    snapC1cex_l1.instructor_id = some 0 ∧
    snapC1cex_l2.instructor_id = some 0 :=
  ⟨rfl, rfl, by decide, by decide, rfl, rfl⟩

end CSP
